import Mathlib

/-!
Verification of the AWS Glue L2 job constructs, a shallow embedding of
src/packages/@aws-cdk/aws-glue-alpha/lib/jobs/pyspark-streaming-job.ts and
src/packages/@aws-cdk/aws-glue-alpha/lib/jobs/ray-job.ts.  Members of the Job
base class, the spark-ui helpers and the constants module are not part of the
source tree; where a definition depends on them it is modelled from the
specification (spec.md) and says so in its doc comment.
-/

namespace GlueL2

/-- Command-line style argument maps: a JS object with string keys and values,
entries kept in insertion order. -/
abbrev ArgumentMap := List (String × String)

/-- First-occurrence lookup.  Keys of a JS object are unique, so on maps built
by setArg this is the value of the key. -/
def lookupArg : ArgumentMap → String → Option String
  | [], _ => none
  | (a, b) :: rest, k => if a = k then some b else lookupArg rest k

/-- JS property write: replace the value in place when the key already exists,
otherwise append the new entry. -/
def setArg : ArgumentMap → String → String → ArgumentMap
  | [], k, v => [(k, v)]
  | (a, b) :: rest, k, v => if a = k then (k, v) :: rest else (a, b) :: setArg rest k v

/-- One JS object spread step: writing every entry of the second object over
the first, in order. -/
def spread (a b : ArgumentMap) : ArgumentMap :=
  b.foldl (fun acc kv => setArg acc kv.1 kv.2) a

/-- An object literal made of spreads, as in lines 96 to 102 of
pyspark-streaming-job.ts. -/
def jsMergeAll (frags : List ArgumentMap) : ArgumentMap :=
  frags.foldl spread []

/-- Value of the last entry of the map carrying the given key, if any. -/
def lastLookup : ArgumentMap → String → Option String
  | [], _ => none
  | (a, b) :: rest, k =>
    match lastLookup rest k with
    | some w => some w
    | none => if a = k then some b else none

/-- Ordered merge of argument fragments as the specification words it in 4.1:
later entries win on key collision. -/
def orderedMergeLookup (frags : List ArgumentMap) (k : String) : Option String :=
  frags.foldl (fun acc m => match lastLookup m k with | some v => some v | none => acc) none

/-- Errors raised during job construction.  jsError is a plain thrown Error
carrying its message (pyspark-streaming-job.ts line 105); reservedArgumentError
and validationError are the failure kinds the specification names for the
reserved-key check and the Spark UI path check, whose raising code is outside
the source tree. -/
inductive JobError where
  | jsError (msg : String)
  | reservedArgumentError (keys : List String)
  | validationError (badPath : String)
  deriving DecidableEq

/-- Modelled from the spec: the constants module is not under src; only the
job-type tags used by the two variant files are needed. -/
inductive JobType where
  | STREAMING
  | RAY
  deriving DecidableEq

/-- Modelled from the spec: engine versions from the constants module. -/
inductive GlueVersion where
  | V2_0
  | V3_0
  | V4_0
  deriving DecidableEq

/-- Modelled from the spec: worker types from the constants module. -/
inductive WorkerType where
  | G_1X
  | G_2X
  | Z_2X
  deriving DecidableEq

/-- Modelled from the spec: python versions from the constants module. -/
inductive PythonVersion where
  | THREE_NINE
  deriving DecidableEq

/-- Modelled from the spec: the language tag is a plain string constant. -/
def JobLanguage.PYTHON : String := "python"

/-- Identity and role collaborator: the core only needs a stable ARN-like
string (spec section 6). -/
structure IRole where
  roleArn : String
  deriving DecidableEq

/-- Storage container collaborator (spec section 6). -/
structure Bucket where
  bucketName : String
  deriving DecidableEq

/-- Script reference collaborator: an opaque handle resolving to a storage URL
(spec section 6). -/
structure Code where
  s3Url : String
  deriving DecidableEq

/-- Connection reference, used only through its name (line 123). -/
structure Connection where
  connectionName : String
  deriving DecidableEq

/-- Security configuration reference, used only through its name (line 124). -/
structure SecurityConfiguration where
  securityConfigurationName : String
  deriving DecidableEq

/-- Modelled from the spec: urlForObject of the storage container collaborator
(spec section 6), a fully qualified storage URL for a path. -/
def s3UrlForObject (b : Bucket) (path : Option String) : String :=
  match path with
  | some p => "s3://" ++ b.bucketName ++ "/" ++ p
  | none => "s3://" ++ b.bucketName

/-- Modelled from the spec: codeS3ObjectUrl of the Job base class (job.ts, not
under src) resolves the script reference to its storage URL. -/
def codeS3ObjectUrl (c : Code) : String := c.s3Url

/-- Modelled from the spec (4.3): the boolean-gated continuous logging
configuration with its optional sub-options (log group, conversion pattern,
filter); the defining module is not under src. -/
structure ContinuousLoggingProps where
  enabled : Bool
  logGroup : Option String := none
  conversionPattern : Option String := none
  logFilter : Option String := none
  deriving DecidableEq

/-- Spark UI properties.  spark-ui.ts is not under src; the field shapes follow
the uses in pyspark-streaming-job.ts.  The source names the path field after a
keyword of this language, so it is uiLogPath here (source name: the path
fragment under which event logs are written). -/
structure SparkUIProps where
  bucket : Option Bucket := none
  uiLogPath : Option String := none
  deriving DecidableEq

/-- The Spark UI logging location pair (lines 172 to 176). -/
structure SparkUILoggingLocation where
  uiLogPath : Option String
  bucket : Bucket
  deriving DecidableEq

/-- Record of one grantReadWrite call on a storage container (line 166). -/
structure Grant where
  bucket : Bucket
  grantee : IRole
  objectsKeyPattern : Option String
  deriving DecidableEq

/-- The resolved configuration bag (spec section 3).  job.ts is not under src;
the fields follow the uses in the two variant files.  numberOrWorkers keeps the
source spelling; the timeout is modelled directly in minutes. -/
structure JobProperties where
  jobName : Option String := none
  description : Option String := none
  role : IRole
  script : Code
  glueVersion : Option GlueVersion := none
  workerType : Option WorkerType := none
  numberOrWorkers : Option Nat := none
  maxRetries : Option Nat := none
  maxConcurrentRuns : Option Nat := none
  timeout : Option Nat := none
  connections : Option (List Connection) := none
  securityConfiguration : Option SecurityConfiguration := none
  tags : Option (List (String × String)) := none
  defaultArguments : Option ArgumentMap := none
  continuousLogging : Option ContinuousLoggingProps := none
  deriving DecidableEq

/-- Properties of the PySpark Streaming variant (lines 27 to 44). -/
structure PySparkStreamingJobProperties extends JobProperties where
  sparkUI : Option SparkUIProps := none
  extraPythonFiles : Option (List String) := none
  deriving DecidableEq

/-- RayJobProperties extends JobProperties and adds nothing (ray-job.ts line 19). -/
abbrev RayJobProperties := JobProperties

/-- Modelled from the spec: the reserved-key set of the Job base class (job.ts,
not under src).  The spec does not enumerate the set; these are the Glue
reserved runtime arguments its glossary points at. -/
def reservedArgs : List String := ["--conf", "--debug", "--mode", "--JOB_NAME"]

/-- Modelled from the spec: checkNoReservedArgs of the Job base class (job.ts,
not under src).  Every caller-supplied key is checked against the reserved-key
set; any collision fails with a reservedArgumentError naming the offending
keys; on success the map is handed back unchanged. -/
def checkNoReservedArgs (m : Option ArgumentMap) : Except JobError (Option ArgumentMap) :=
  match m with
  | none => .ok none
  | some args =>
    let bad := args.filter (fun kv => decide (kv.1 ∈ reservedArgs))
    if bad.isEmpty then .ok (some args) else .error (.reservedArgumentError (bad.map Prod.fst))

/-- A single optional argument entry. -/
def optionEntry (key : String) (v : Option String) : ArgumentMap :=
  match v with
  | some s => [(key, s)]
  | none => []

/-- Modelled from the spec (4.3): setupContinuousLogging of the Job base class
(job.ts, not under src) produces the enabling entry plus pass-through entries
for the sub-options that are present. -/
def setupContinuousLogging (_role : IRole) (cl : ContinuousLoggingProps) : ArgumentMap :=
  [("--enable-continuous-cloudwatch-log", "true")]
    ++ optionEntry "--continuous-log-logGroup" cl.logGroup
    ++ optionEntry "--continuous-log-conversionPattern" cl.conversionPattern
    ++ optionEntry "--enable-continuous-log-filter" cl.logFilter

/-- Embedding of line 89: the continuous logging fragment is produced only when
the gate is true, otherwise it is the empty object. -/
def continuousLoggingFragment (role : IRole) (cl : Option ContinuousLoggingProps) : ArgumentMap :=
  match cl with
  | some c => if c.enabled then setupContinuousLogging role c else []
  | none => []

/-- Line 90: the profiling metrics fragment, added unconditionally. -/
def profilingMetricsArgs : ArgumentMap := [("--enable-metrics", "")]

/-- Modelled from the spec (4.4): validateSparkUiPrefix of spark-ui.ts (not
under src).  The path must be a syntactically valid path fragment; validity is
modelled as not beginning with a slash (the example valid value in the spec is
"logs/"); failure names the invalid value. -/
def validateSparkUiPrefix (path : Option String) : Except JobError Unit :=
  match path with
  | none => .ok ()
  | some p => if p.data.head? = some '/' then .error (.validationError p) else .ok ()

/-- Modelled from the spec (4.4): cleanSparkUiPrefixForGrant of spark-ui.ts
(not under src); the grant is restricted to objects under the cleaned path. -/
def cleanSparkUiPrefixForGrant (path : Option String) : Option String :=
  path.map (fun p => p ++ "*")

/-- The value returned by setupSparkUI (lines 172 to 178) together with the
synthesis side effects it performed: containers created and grants made. -/
structure SparkUISetup where
  location : SparkUILoggingLocation
  args : ArgumentMap
  createdBuckets : List Bucket
  grants : List Grant
  deriving DecidableEq

/-- The record setupSparkUI returns for a given resolved bucket; created lists
the containers the call brought into being. -/
def mkSparkUISetup (role : IRole) (sparkUiProps : SparkUIProps) (bucket : Bucket)
    (created : List Bucket) : SparkUISetup :=
  { location := { uiLogPath := sparkUiProps.uiLogPath, bucket := bucket }
    args := [("--enable-spark-ui", "true"),
             ("--spark-event-logs-path", s3UrlForObject bucket sparkUiProps.uiLogPath)]
    createdBuckets := created
    grants := [{ bucket := bucket, grantee := role,
                 objectsKeyPattern := cleanSparkUiPrefixForGrant sparkUiProps.uiLogPath }] }

/-- setupSparkUI (lines 162 to 179): validate the path, fall back to a fresh
container named SparkUIBucket scoped to the job when none is supplied, grant
read and write to the role under the cleaned path, and produce the two Spark UI
argument entries. -/
def setupSparkUI (id : String) (role : IRole) (sparkUiProps : SparkUIProps) :
    Except JobError SparkUISetup :=
  match validateSparkUiPrefix sparkUiProps.uiLogPath with
  | .error e => .error e
  | .ok _ =>
    match sparkUiProps.bucket with
    | some b => .ok (mkSparkUISetup role sparkUiProps b [])
    | none =>
      let b : Bucket := { bucketName := id ++ "/SparkUIBucket" }
      .ok (mkSparkUISetup role sparkUiProps b [b])

/-- Embedding of line 85: setupSparkUI runs only when a Spark UI configuration
with a container is supplied (the condition is the truthiness of
props.sparkUI?.bucket), otherwise the stage yields undefined. -/
def sparkUIStage (id : String) (role : IRole) (ui : Option SparkUIProps) :
    Except JobError (Option SparkUISetup) :=
  match ui with
  | some sp =>
    if sp.bucket.isSome then
      match setupSparkUI id role sp with
      | .ok s => .ok (some s)
      | .error e => .error e
    else .ok none
  | none => .ok none

/-- The Spark UI argument fragment as a function of the supplied properties:
empty unless a configuration with a container is supplied, in which case it is
the two entries setupSparkUI produces. -/
def sparkUIFragmentOf (ui : Option SparkUIProps) : ArgumentMap :=
  match ui with
  | some sp =>
    match sp.bucket with
    | some b => [("--enable-spark-ui", "true"),
                 ("--spark-event-logs-path", s3UrlForObject b sp.uiLogPath)]
    | none => []
  | none => []

/-- executableArguments (lines 140 to 160).  The body of the extraPythonFiles
branch is entirely commented out in the source, so the branch leaves the map
unchanged; the commented-out extra-jars and extra-files blocks likewise
contribute nothing. -/
def executableArguments (props : PySparkStreamingJobProperties) : ArgumentMap :=
  let args : ArgumentMap := setArg [] "--job-language" JobLanguage.PYTHON
  if (props.extraPythonFiles.getD []).length > 0 then args else args

/-- The worker pairing condition of lines 104 to 106 (JS truthiness of the
optional worker type and strict undefined comparison on the count). -/
def workerPairViolation (wt : Option WorkerType) (n : Option Nat) : Bool :=
  (wt.isNone && n.isSome) || (wt.isSome && n.isNone)

/-- The trailing object literal of the role assignment comma expression
(lines 78 to 81 of pyspark-streaming-job.ts, lines 46 to 49 of ray-job.ts).
The comma expression evaluates it and discards it. -/
structure RoleConfigLiteral where
  assumedBy : String
  managedPolicies : List String
  deriving DecidableEq

/-- The literal discarded by the comma expression: a glue service principal and
the managed AWSGlueServiceRole policy, never attached to anything. -/
def discardedRoleLiteral : RoleConfigLiteral :=
  { assumedBy := "glue.amazonaws.com"
    managedPolicies := ["service-role/AWSGlueServiceRole"] }

/-- The property bag handed to the Resource Emitter, the CfnJob of lines 108
to 127.  executionProperty is its maxConcurrentRuns field. -/
structure CfnJobProps where
  name : Option String
  description : Option String
  role : String
  commandName : JobType
  scriptLocation : String
  pythonVersion : Option PythonVersion
  glueVersion : GlueVersion
  workerType : Option WorkerType
  numberOfWorkers : Option Nat
  maxRetries : Option Nat
  executionProperty : Option Nat
  timeout : Option Nat
  connections : Option (List String)
  securityConfiguration : Option String
  tags : Option (List (String × String))
  defaultArguments : ArgumentMap
  deriving DecidableEq

/-- Modelled from the spec (section 6): the external Resource Emitter returns a
local reference from which the resolved name is read; a named job resolves to
its name, an unnamed one to a scope-derived identifier. -/
def emitJobResource (scope id : String) (res : CfnJobProps) : String :=
  match res.name with
  | some n => n
  | none => scope ++ "/" ++ id ++ "/Resource"

/-- Modelled from the spec (section 6): the ARN-like identifier is built as
arn-prefix + ":job/" + resolvedName. -/
def buildJobArn (resolvedName : String) : String :=
  "arn:aws:glue" ++ ":job/" ++ resolvedName

/-- The constructed PySpark Streaming job: the attributes the class stores,
the property bag it handed to the Resource Emitter, and the synthesis side
effects performed along the way (containers created, grants made, managed
policies attached). -/
structure pySparkStreamingJob where
  role : IRole
  grantPrincipal : IRole
  sparkUILoggingLocation : Option SparkUILoggingLocation
  jobResource : CfnJobProps
  jobName : String
  jobArn : String
  createdBuckets : List Bucket
  grants : List Grant
  policyAttachments : List (IRole × String)
  deriving DecidableEq

/-- The merged default arguments of lines 96 to 102: executable arguments,
continuous logging arguments, profiling metrics arguments, Spark UI arguments,
then the checked caller arguments, combined by object spread. -/
def mergedDefaultArguments (props : PySparkStreamingJobProperties)
    (u : Option SparkUISetup) (checked : Option ArgumentMap) : ArgumentMap :=
  jsMergeAll
    [executableArguments props,
     continuousLoggingFragment props.role props.continuousLogging,
     profilingMetricsArgs,
     (u.map SparkUISetup.args).getD [],
     checked.getD []]

/-- The CfnJob property bag of lines 108 to 127 with the variant defaults
applied.  The ternaries on glueVersion and workerType and the JS truthiness of
maxConcurrentRuns (zero is falsy) are embedded as written. -/
def resolvedCfnJobProps (props : PySparkStreamingJobProperties)
    (u : Option SparkUISetup) (checked : Option ArgumentMap) : CfnJobProps :=
  { name := props.jobName
    description := props.description
    role := props.role.roleArn
    commandName := JobType.STREAMING
    scriptLocation := codeS3ObjectUrl props.script
    pythonVersion := some PythonVersion.THREE_NINE
    glueVersion := props.glueVersion.getD GlueVersion.V4_0
    workerType := some (props.workerType.getD WorkerType.G_2X)
    numberOfWorkers := props.numberOrWorkers
    maxRetries := props.maxRetries
    executionProperty :=
      match props.maxConcurrentRuns with
      | some n => if n = 0 then none else some n
      | none => none
    timeout := props.timeout
    connections := props.connections.map (fun cs => cs.map Connection.connectionName)
    securityConfiguration :=
      props.securityConfiguration.map (fun sc => sc.securityConfigurationName)
    tags := props.tags
    defaultArguments := mergedDefaultArguments props u checked }

/-- The successful construction result (lines 108 to 131): the resolved CfnJob
property bag, the emitted resource name, and the derived identifiers. -/
def buildStreamingJob (scope id : String) (props : PySparkStreamingJobProperties)
    (u : Option SparkUISetup) (checked : Option ArgumentMap) : pySparkStreamingJob :=
  { role := props.role
    grantPrincipal := props.role
    sparkUILoggingLocation := u.map SparkUISetup.location
    jobResource := resolvedCfnJobProps props u checked
    jobName := emitJobResource scope id (resolvedCfnJobProps props u checked)
    jobArn := buildJobArn (emitJobResource scope id (resolvedCfnJobProps props u checked))
    createdBuckets := (u.map SparkUISetup.createdBuckets).getD []
    grants := (u.map SparkUISetup.grants).getD []
    policyAttachments := [] }

/-- The pySparkStreamingJob constructor (lines 72 to 132).  The failing steps
run in source order: the Spark UI stage of line 85, the reserved-argument check
evaluated while the merged object of lines 96 to 102 is formed, then the worker
pairing check of lines 104 to 106; the purely computational parts are gathered
in buildStreamingJob.  The comma expression of lines 78 to 81 evaluates and
discards the role literal and attaches no policy. -/
def pySparkStreamingJob.construct (scope id : String)
    (props : PySparkStreamingJobProperties) : Except JobError pySparkStreamingJob :=
  let _discarded := discardedRoleLiteral
  match sparkUIStage id props.role props.sparkUI with
  | .error e => .error e
  | .ok sparkUISetup =>
    match checkNoReservedArgs props.defaultArguments with
    | .error e => .error e
    | .ok checked =>
      if workerPairViolation props.workerType props.numberOrWorkers then
        .error (.jsError "Both workerType and numberOrWorkers must be set")
      else
        .ok (buildStreamingJob scope id props sparkUISetup checked)

/-- The constructed Ray job.  The constructor (ray-job.ts lines 40 to 59)
assigns the role and grant principal, computes the merged default arguments and
then stops: no resource is emitted and the declared jobName and jobArn
attributes are never assigned, so they are modelled as absent. -/
structure RayJob where
  role : IRole
  grantPrincipal : IRole
  defaultArguments : ArgumentMap
  jobResource : Option CfnJobProps
  jobName : Option String
  jobArn : Option String
  policyAttachments : List (IRole × String)
  deriving DecidableEq

/-- The RayJob constructor (ray-job.ts lines 40 to 59): role wiring with the
discarded comma-expression literal, the reserved-argument check over the
caller arguments, the merged object of lines 53 to 55, and nothing else. -/
def RayJob.construct (_scope _id : String) (props : RayJobProperties) :
    Except JobError RayJob :=
  let _discarded := discardedRoleLiteral
  match checkNoReservedArgs props.defaultArguments with
  | .error e => .error e
  | .ok checked =>
    .ok { role := props.role
          grantPrincipal := props.role
          defaultArguments := jsMergeAll [checked.getD []]
          jobResource := none
          jobName := none
          jobArn := none
          policyAttachments := [] }

/-- A concrete role for test fixtures. -/
def role0 : IRole := { roleArn := "arn:aws:iam::123456789012:role/GlueJobRole" }

/-- A concrete script reference for test fixtures. -/
def script0 : Code := { s3Url := "s3://assets/job-script/hello_world.py" }

/-- A concrete caller-supplied container for test fixtures. -/
def bucket0 : Bucket := { bucketName := "spark-ui-logs" }

/-- Minimal streaming job properties: role, script and a physical name. -/
def props1 : PySparkStreamingJobProperties :=
  { role := role0, script := script0, jobName := some "MyJob" }

/-- Streaming job properties with a reserved caller argument. -/
def props2 : PySparkStreamingJobProperties :=
  { role := role0, script := script0, defaultArguments := some [("--debug", "1")] }

/-- Ray job properties with a reserved caller argument. -/
def props2ray : RayJobProperties :=
  { role := role0, script := script0, defaultArguments := some [("--debug", "1")] }

/-- Streaming job properties with a worker type but no worker count. -/
def props3 : PySparkStreamingJobProperties :=
  { role := role0, script := script0, workerType := some WorkerType.G_1X }

/-- Ray job properties with a worker type but no worker count. -/
def props3ray : RayJobProperties :=
  { role := role0, script := script0, workerType := some WorkerType.Z_2X }

/-- Streaming job properties with Spark UI enabled through a caller-supplied
container and the path "logs/". -/
def props4 : PySparkStreamingJobProperties :=
  { role := role0, script := script0, jobName := some "MyJob",
    sparkUI := some { bucket := some bucket0, uiLogPath := some "logs/" } }

/-- Streaming job properties with a Spark UI configuration that carries a path
but no container. -/
def props5 : PySparkStreamingJobProperties :=
  { role := role0, script := script0, jobName := some "MyJob",
    sparkUI := some { bucket := none, uiLogPath := some "logs/" } }

/-- Ray job properties with full worker sizing. -/
def rayProps7 : RayJobProperties :=
  { role := role0, script := script0,
    workerType := some WorkerType.Z_2X, numberOrWorkers := some 3 }

/-- Streaming job properties with continuous logging enabled. -/
def props9 : PySparkStreamingJobProperties :=
  { role := role0, script := script0, jobName := some "MyJob",
    continuousLogging := some { enabled := true } }

/-- The resource bag props1 resolves to. -/
def fixtureResource1 : CfnJobProps :=
  { name := some "MyJob", description := none, role := role0.roleArn,
    commandName := JobType.STREAMING, scriptLocation := codeS3ObjectUrl script0,
    pythonVersion := some PythonVersion.THREE_NINE, glueVersion := GlueVersion.V4_0,
    workerType := some WorkerType.G_2X, numberOfWorkers := none,
    maxRetries := none, executionProperty := none, timeout := none,
    connections := none, securityConfiguration := none, tags := none,
    defaultArguments := [("--job-language", "python"), ("--enable-metrics", "")] }

/-- The job props1 constructs. -/
def fixtureJob1 : pySparkStreamingJob :=
  { role := role0, grantPrincipal := role0, sparkUILoggingLocation := none,
    jobResource := fixtureResource1, jobName := "MyJob", jobArn := buildJobArn "MyJob",
    createdBuckets := [], grants := [], policyAttachments := [] }

/-- The resource bag props4 resolves to. -/
def fixtureResource4 : CfnJobProps :=
  { name := some "MyJob", description := none, role := role0.roleArn,
    commandName := JobType.STREAMING, scriptLocation := codeS3ObjectUrl script0,
    pythonVersion := some PythonVersion.THREE_NINE, glueVersion := GlueVersion.V4_0,
    workerType := some WorkerType.G_2X, numberOfWorkers := none,
    maxRetries := none, executionProperty := none, timeout := none,
    connections := none, securityConfiguration := none, tags := none,
    defaultArguments :=
      [("--job-language", "python"), ("--enable-metrics", ""),
       ("--enable-spark-ui", "true"),
       ("--spark-event-logs-path", s3UrlForObject bucket0 (some "logs/"))] }

/-- The job props4 constructs. -/
def fixtureJob4 : pySparkStreamingJob :=
  { role := role0, grantPrincipal := role0,
    sparkUILoggingLocation := some { uiLogPath := some "logs/", bucket := bucket0 },
    jobResource := fixtureResource4, jobName := "MyJob", jobArn := buildJobArn "MyJob",
    createdBuckets := [],
    grants := [{ bucket := bucket0, grantee := role0,
                 objectsKeyPattern := cleanSparkUiPrefixForGrant (some "logs/") }],
    policyAttachments := [] }

/-- The job rayProps7 constructs. -/
def fixtureRay7 : RayJob :=
  { role := role0, grantPrincipal := role0, defaultArguments := [],
    jobResource := none, jobName := none, jobArn := none, policyAttachments := [] }

/-- The resource bag props9 resolves to. -/
def fixtureResource9 : CfnJobProps :=
  { name := some "MyJob", description := none, role := role0.roleArn,
    commandName := JobType.STREAMING, scriptLocation := codeS3ObjectUrl script0,
    pythonVersion := some PythonVersion.THREE_NINE, glueVersion := GlueVersion.V4_0,
    workerType := some WorkerType.G_2X, numberOfWorkers := none,
    maxRetries := none, executionProperty := none, timeout := none,
    connections := none, securityConfiguration := none, tags := none,
    defaultArguments :=
      [("--job-language", "python"),
       ("--enable-continuous-cloudwatch-log", "true"),
       ("--enable-metrics", "")] }

/-- The job props9 constructs. -/
def fixtureJob9 : pySparkStreamingJob :=
  { role := role0, grantPrincipal := role0, sparkUILoggingLocation := none,
    jobResource := fixtureResource9, jobName := "MyJob", jobArn := buildJobArn "MyJob",
    createdBuckets := [], grants := [], policyAttachments := [] }

theorem lookupArg_setArg (m : ArgumentMap) (k v k' : String) :
    lookupArg (setArg m k v) k' = if k = k' then some v else lookupArg m k' := by
  induction m with
  | nil => simp [setArg, lookupArg]
  | cons hd tl ih =>
    obtain ⟨a, b⟩ := hd
    by_cases hak : a = k
    · subst hak
      simp only [setArg, if_pos rfl, lookupArg]
      by_cases h : a = k'
      · simp [h]
      · simp [h]
    · simp only [setArg, if_neg hak, lookupArg, ih]
      by_cases h1 : a = k' <;> by_cases h2 : k = k' <;> simp_all

theorem lookupArg_spread (b a : ArgumentMap) (k : String) :
    lookupArg (spread a b) k =
      match lastLookup b k with
      | some v => some v
      | none => lookupArg a k := by
  induction b generalizing a with
  | nil => simp [spread, lastLookup]
  | cons hd tl ih =>
    obtain ⟨x, y⟩ := hd
    have hs : spread a ((x, y) :: tl) = spread (setArg a x y) tl := rfl
    rw [hs, ih]
    simp only [lastLookup]
    cases h : lastLookup tl k with
    | some w => rfl
    | none =>
      rw [lookupArg_setArg]
      by_cases hxk : x = k
      · simp [hxk]
      · simp [hxk]

theorem lookupArg_foldl_spread (frags : List ArgumentMap) (a : ArgumentMap) (k : String) :
    lookupArg (frags.foldl spread a) k =
      frags.foldl (fun acc m => match lastLookup m k with | some v => some v | none => acc)
        (lookupArg a k) := by
  induction frags generalizing a with
  | nil => rfl
  | cons m tl ih =>
    simp only [List.foldl]
    rw [ih, lookupArg_spread]

/-- The JS spread object of a fragment list agrees pointwise with the ordered
merge the specification describes: later fragments win on key collision. -/
theorem lookupArg_jsMergeAll (frags : List ArgumentMap) (k : String) :
    lookupArg (jsMergeAll frags) k = orderedMergeLookup frags k := by
  unfold jsMergeAll orderedMergeLookup
  rw [lookupArg_foldl_spread]
  rfl

theorem lastLookup_eq_none (m : ArgumentMap) (k : String) (h : ∀ p ∈ m, p.1 ≠ k) :
    lastLookup m k = none := by
  induction m with
  | nil => rfl
  | cons hd tl ih =>
    obtain ⟨a, b⟩ := hd
    have ha : a ≠ k := h (a, b) (by simp)
    have ht : ∀ p ∈ tl, p.1 ≠ k := fun p hp => h p (by simp [hp])
    simp [lastLookup, ih ht, ha]

theorem executableArguments_const (props : PySparkStreamingJobProperties) :
    executableArguments props = [("--job-language", "python")] := by
  simp [executableArguments, setArg, JobLanguage.PYTHON]

theorem checkNoReservedArgs_ok (m m' : Option ArgumentMap)
    (h : checkNoReservedArgs m = .ok m') : m' = m := by
  cases m with
  | none =>
    simp only [checkNoReservedArgs, Except.ok.injEq] at h
    exact h.symm
  | some args =>
    simp only [checkNoReservedArgs] at h
    split at h
    · simp only [Except.ok.injEq] at h
      exact h.symm
    · simp at h

theorem sparkUIStage_none (id : String) (role : IRole) (ui : Option SparkUIProps)
    (h : ui.bind SparkUIProps.bucket = none) : sparkUIStage id role ui = .ok none := by
  cases ui with
  | none => rfl
  | some sp =>
    have hb : sp.bucket = none := h
    simp [sparkUIStage, hb]

theorem sparkUIStage_args (id : String) (role : IRole) (ui : Option SparkUIProps)
    (u : Option SparkUISetup) (h : sparkUIStage id role ui = .ok u) :
    (u.map SparkUISetup.args).getD [] = sparkUIFragmentOf ui := by
  cases ui with
  | none =>
    simp only [sparkUIStage, Except.ok.injEq] at h
    subst h
    rfl
  | some sp =>
    cases hb : sp.bucket with
    | none =>
      simp only [sparkUIStage, hb] at h
      simp at h
      subst h
      simp [sparkUIFragmentOf, hb]
    | some b =>
      simp only [sparkUIStage, hb] at h
      simp only [Option.isSome_some, if_true] at h
      unfold setupSparkUI at h
      cases hv : validateSparkUiPrefix sp.uiLogPath with
      | error e =>
        rw [hv] at h
        simp at h
      | ok w =>
        rw [hv] at h
        simp only [hb, Except.ok.injEq] at h
        subst h
        simp [sparkUIFragmentOf, hb, mkSparkUISetup]

theorem construct_ok (scope id : String) (props : PySparkStreamingJobProperties)
    (job : pySparkStreamingJob)
    (h : pySparkStreamingJob.construct scope id props = .ok job) :
    ∃ u, sparkUIStage id props.role props.sparkUI = .ok u ∧
      checkNoReservedArgs props.defaultArguments = .ok props.defaultArguments ∧
      workerPairViolation props.workerType props.numberOrWorkers = false ∧
      job = buildStreamingJob scope id props u props.defaultArguments := by
  unfold pySparkStreamingJob.construct at h
  split at h
  · exact absurd h (by simp)
  next u heq =>
    split at h
    · exact absurd h (by simp)
    next checked heq2 =>
      have hce : checked = props.defaultArguments := checkNoReservedArgs_ok _ _ heq2
      subst hce
      split at h
      · exact absurd h (by simp)
      next hwp =>
        refine ⟨u, heq, heq2, ?_, ?_⟩
        · cases hbb : workerPairViolation props.workerType props.numberOrWorkers with
          | false => rfl
          | true => exact absurd hbb hwp
        · injection h with h
          exact h.symm

theorem lastLookup_append (a b : ArgumentMap) (k : String) :
    lastLookup (a ++ b) k =
      match lastLookup b k with
      | some v => some v
      | none => lastLookup a k := by
  induction a with
  | nil => cases h : lastLookup b k <;> simp [h, lastLookup]
  | cons hd tl ih =>
    obtain ⟨x, y⟩ := hd
    simp only [List.cons_append, lastLookup]
    cases hb : lastLookup b k <;> cases ht : lastLookup tl k <;> simp [ih, hb, ht]

theorem lastLookup_optionEntry (key : String) (v : Option String) (k : String) (h : key ≠ k) :
    lastLookup (optionEntry key v) k = none := by
  cases v <;> simp [optionEntry, lastLookup, h]

theorem lastLookup_setupContinuousLogging (role : IRole) (cl : ContinuousLoggingProps) (k : String)
    (h1 : "--enable-continuous-cloudwatch-log" ≠ k) (h2 : "--continuous-log-logGroup" ≠ k)
    (h3 : "--continuous-log-conversionPattern" ≠ k) (h4 : "--enable-continuous-log-filter" ≠ k) :
    lastLookup (setupContinuousLogging role cl) k = none := by
  unfold setupContinuousLogging
  rw [lastLookup_append, lastLookup_append, lastLookup_append,
      lastLookup_optionEntry _ _ _ h4, lastLookup_optionEntry _ _ _ h3,
      lastLookup_optionEntry _ _ _ h2]
  simp [lastLookup, h1]

theorem lastLookup_continuousLoggingFragment (role : IRole) (cl : Option ContinuousLoggingProps)
    (k : String)
    (h1 : "--enable-continuous-cloudwatch-log" ≠ k) (h2 : "--continuous-log-logGroup" ≠ k)
    (h3 : "--continuous-log-conversionPattern" ≠ k) (h4 : "--enable-continuous-log-filter" ≠ k) :
    lastLookup (continuousLoggingFragment role cl) k = none := by
  cases cl with
  | none => rfl
  | some c =>
    simp only [continuousLoggingFragment]
    by_cases he : c.enabled = true
    · rw [if_pos he]
      exact lastLookup_setupContinuousLogging role c k h1 h2 h3 h4
    · rw [if_neg he]
      rfl

theorem lastLookup_sparkUIFragmentOf (ui : Option SparkUIProps) (k : String)
    (h1 : "--enable-spark-ui" ≠ k) (h2 : "--spark-event-logs-path" ≠ k) :
    lastLookup (sparkUIFragmentOf ui) k = none := by
  cases ui with
  | none => rfl
  | some sp =>
    cases hb : sp.bucket with
    | none => simp [sparkUIFragmentOf, hb, lastLookup]
    | some b => simp [sparkUIFragmentOf, hb, lastLookup, h1, h2]

theorem lastLookup_profilingMetrics (k : String) (h : "--enable-metrics" ≠ k) :
    lastLookup profilingMetricsArgs k = none := by
  simp [profilingMetricsArgs, lastLookup, h]

theorem lastLookup_executableArguments (props : PySparkStreamingJobProperties) (k : String)
    (h : "--job-language" ≠ k) : lastLookup (executableArguments props) k = none := by
  rw [executableArguments_const]
  simp [lastLookup, h]

theorem lastLookup_ui_enable (v : String) :
    lastLookup [("--enable-spark-ui", "true"), ("--spark-event-logs-path", v)]
      "--enable-spark-ui" = some "true" := rfl

theorem lastLookup_ui_path (v : String) :
    lastLookup [("--enable-spark-ui", "true"), ("--spark-event-logs-path", v)]
      "--spark-event-logs-path" = some v := rfl

theorem buildStreamingJob_args (scope id : String) (props : PySparkStreamingJobProperties)
    (u : Option SparkUISetup) (checked : Option ArgumentMap) :
    (buildStreamingJob scope id props u checked).jobResource.defaultArguments =
      mergedDefaultArguments props u checked := rfl

/-- C1: for every successfully constructed PySpark Streaming job, the final
merged ArgumentMap agrees, at every key, with the ordered merge, later entries
winning on key collision, of the variant-required arguments, then the
continuous-logging arguments, then the metrics arguments, then the Spark-UI
arguments, then the caller-supplied defaultArguments. -/
theorem claim1_merge_order (scope id : String) (props : PySparkStreamingJobProperties)
    (job : pySparkStreamingJob)
    (h : pySparkStreamingJob.construct scope id props = .ok job) (k : String) :
    lookupArg job.jobResource.defaultArguments k =
      orderedMergeLookup
        [executableArguments props,
         continuousLoggingFragment props.role props.continuousLogging,
         profilingMetricsArgs,
         sparkUIFragmentOf props.sparkUI,
         props.defaultArguments.getD []] k := by
  obtain ⟨u, hui, hchk, hwp, hjob⟩ := construct_ok scope id props job h
  subst hjob
  rw [buildStreamingJob_args]
  unfold mergedDefaultArguments
  rw [sparkUIStage_args id props.role props.sparkUI u hui]
  exact lookupArg_jsMergeAll _ k

/-- Witness for C1 at a concrete input. -/
theorem claim1_merge_order_witness :
    pySparkStreamingJob.construct "Stack" "JobId" props1 = .ok fixtureJob1 ∧
    lookupArg fixtureJob1.jobResource.defaultArguments "--enable-metrics" =
      orderedMergeLookup
        [executableArguments props1,
         continuousLoggingFragment props1.role props1.continuousLogging,
         profilingMetricsArgs,
         sparkUIFragmentOf props1.sparkUI,
         props1.defaultArguments.getD []] "--enable-metrics" := by
  have h : pySparkStreamingJob.construct "Stack" "JobId" props1 = .ok fixtureJob1 := rfl
  exact ⟨h, claim1_merge_order "Stack" "JobId" props1 fixtureJob1 h "--enable-metrics"⟩

/-- C3 counterexample: the claim is false for the Ray variant, which performs
no worker pairing check at all, and a Ray job with workerType set and
numberOrWorkers unset constructs successfully; moreover the streaming variant
throws a message differing from the claimed one in case and spelling. -/
theorem claim3_counterexample :
    props3ray.workerType.isSome = true ∧ props3ray.numberOrWorkers = none ∧
    RayJob.construct "Stack" "JobId" props3ray = .ok fixtureRay7 ∧
    "Both workerType and numberOrWorkers must be set" ≠
      "both workerType and numberOfWorkers must be set" :=
  ⟨rfl, rfl, rfl, by decide⟩

/-- C3 amended: for the PySpark Streaming variant, when the Spark UI stage and
the reserved-argument check pass and exactly one of workerType and
numberOrWorkers is set, construction fails with the thrown error message
"Both workerType and numberOrWorkers must be set". -/
theorem claim3_amended (scope id : String) (props : PySparkStreamingJobProperties)
    (u : Option SparkUISetup)
    (hui : sparkUIStage id props.role props.sparkUI = .ok u)
    (hchk : checkNoReservedArgs props.defaultArguments = .ok props.defaultArguments)
    (hx : props.workerType.isSome ≠ props.numberOrWorkers.isSome) :
    pySparkStreamingJob.construct scope id props =
      .error (.jsError "Both workerType and numberOrWorkers must be set") := by
  have hv : workerPairViolation props.workerType props.numberOrWorkers = true := by
    cases hw : props.workerType <;> cases hn : props.numberOrWorkers <;>
      simp_all [workerPairViolation]
  unfold pySparkStreamingJob.construct
  rw [hui, hchk, hv]
  simp

/-- Witness for the amended C3: a streaming job with a worker type but no
worker count fails with the source message. -/
theorem claim3_amended_witness :
    pySparkStreamingJob.construct "Stack" "JobId" props3 =
      .error (.jsError "Both workerType and numberOrWorkers must be set") :=
  claim3_amended "Stack" "JobId" props3 none rfl rfl (by decide)

/-- C5: the claim fails on the code. With Spark UI requested through a path but
no container supplied, the gate of line 85 tests props.sparkUI?.bucket, so
setupSparkUI with its container fallback never runs: no container is created,
no grant is made, no logging location is stored, and the Spark UI argument
entries are absent. -/
theorem claim5_spark_ui_bucket_gate :
    pySparkStreamingJob.construct "Stack" "JobId" props5 = .ok fixtureJob1 ∧
    fixtureJob1.createdBuckets = [] ∧ fixtureJob1.grants = [] ∧
    fixtureJob1.sparkUILoggingLocation = none ∧
    lookupArg fixtureJob1.jobResource.defaultArguments "--enable-spark-ui" = none :=
  ⟨rfl, rfl, rfl, rfl, rfl⟩

/-- C6 counterexample: with both workerType and numberOrWorkers unset the
resolved configuration handed to the Resource Emitter still supplies a worker
type, namely the G_2X variant default, so worker sizing is not fully absent. -/
theorem claim6_counterexample :
    props1.workerType = none ∧ props1.numberOrWorkers = none ∧
    pySparkStreamingJob.construct "Stack" "JobId" props1 = .ok fixtureJob1 ∧
    fixtureJob1.jobResource.workerType = some WorkerType.G_2X :=
  ⟨rfl, rfl, rfl, rfl⟩

/-- C6 amended: if both workerType and numberOrWorkers are unset, the resolved
configuration supplies no numberOfWorkers, but its workerType is filled with
the variant default G_2X. -/
theorem claim6_amended (scope id : String) (props : PySparkStreamingJobProperties)
    (job : pySparkStreamingJob)
    (h : pySparkStreamingJob.construct scope id props = .ok job)
    (hwt : props.workerType = none) (hn : props.numberOrWorkers = none) :
    job.jobResource.workerType = some WorkerType.G_2X ∧
    job.jobResource.numberOfWorkers = none := by
  obtain ⟨u, hui, hchk, hwp, hjob⟩ := construct_ok scope id props job h
  subst hjob
  simp [buildStreamingJob, resolvedCfnJobProps, hwt, hn]

/-- Witness for the amended C6 at a concrete input. -/
theorem claim6_amended_witness :
    pySparkStreamingJob.construct "Stack" "JobId" props1 = .ok fixtureJob1 ∧
    fixtureJob1.jobResource.workerType = some WorkerType.G_2X ∧
    fixtureJob1.jobResource.numberOfWorkers = none := by
  have h : pySparkStreamingJob.construct "Stack" "JobId" props1 = .ok fixtureJob1 := rfl
  have h2 := claim6_amended "Stack" "JobId" props1 fixtureJob1 h rfl rfl
  exact ⟨h, h2.1, h2.2⟩

/-- C7: the claim fails for the Ray variant. A Ray job constructs successfully
yet its constructor hands nothing to the Resource Emitter and derives no job
name and no ARN-like identifier: the declared attributes stay unassigned. -/
theorem claim7_ray_unfinished :
    RayJob.construct "Stack" "JobId" rayProps7 = .ok fixtureRay7 ∧
    fixtureRay7.jobResource = none ∧ fixtureRay7.jobName = none ∧
    fixtureRay7.jobArn = none :=
  ⟨rfl, rfl, rfl, rfl⟩

/-- C8: the trailing object literal of the role assignment comma expression has
no effect: for every constructed job of either variant the role field is
exactly the caller-supplied role, the grant principal is that same role, and no
managed policy is attached by the constructor. -/
theorem claim8_role_assignment :
    (∀ scope id props job, pySparkStreamingJob.construct scope id props = .ok job →
      job.role = props.role ∧ job.grantPrincipal = props.role ∧
      job.policyAttachments = []) ∧
    (∀ scope id props r, RayJob.construct scope id props = .ok r →
      r.role = props.role ∧ r.grantPrincipal = props.role ∧
      r.policyAttachments = []) := by
  constructor
  · intro scope id props job h
    obtain ⟨u, hui, hchk, hwp, hjob⟩ := construct_ok scope id props job h
    subst hjob
    exact ⟨rfl, rfl, rfl⟩
  · intro scope id props r h
    unfold RayJob.construct at h
    split at h
    · exact absurd h (by simp)
    next checked heq =>
      injection h with h
      subst h
      exact ⟨rfl, rfl, rfl⟩

/-- Witness for C8 at concrete inputs of both variants. -/
theorem claim8_role_assignment_witness :
    fixtureJob1.role = props1.role ∧ fixtureJob1.grantPrincipal = props1.role ∧
    fixtureJob1.policyAttachments = [] ∧
    fixtureRay7.role = rayProps7.role ∧ fixtureRay7.grantPrincipal = rayProps7.role ∧
    fixtureRay7.policyAttachments = [] := by
  have h1 := claim8_role_assignment.1 "Stack" "JobId" props1 fixtureJob1 rfl
  have h2 := claim8_role_assignment.2 "Stack" "JobId" rayProps7 fixtureRay7 rfl
  exact ⟨h1.1, h1.2.1, h1.2.2, h2.1, h2.2.1, h2.2.2⟩

/-- C10: for every input properties bag the executableArguments function of the
PySpark Streaming variant returns exactly the singleton job-language map, and
supplying extraPythonFiles has no effect because the branch body is inert. -/
theorem claim10_executable_arguments :
    (∀ props : PySparkStreamingJobProperties,
      executableArguments props = [("--job-language", "python")]) ∧
    (∀ (props : PySparkStreamingJobProperties) (files : Option (List String)),
      executableArguments { props with extraPythonFiles := files } =
        executableArguments props) := by
  refine ⟨executableArguments_const, ?_⟩
  intro props files
  rw [executableArguments_const, executableArguments_const]

theorem sparkUIFragmentOf_none (ui : Option SparkUIProps)
    (h : ui.bind SparkUIProps.bucket = none) : sparkUIFragmentOf ui = [] := by
  cases ui with
  | none => rfl
  | some sp =>
    have hb : sp.bucket = none := h
    simp [sparkUIFragmentOf, hb]

theorem checkNoReservedArgs_error (m : ArgumentMap) (k v : String)
    (hkv : (k, v) ∈ m) (hk : k ∈ reservedArgs) :
    checkNoReservedArgs (some m) =
      .error (.reservedArgumentError
        ((m.filter (fun kv => decide (kv.1 ∈ reservedArgs))).map Prod.fst)) ∧
    k ∈ (m.filter (fun kv => decide (kv.1 ∈ reservedArgs))).map Prod.fst ∧
    ∀ x ∈ (m.filter (fun kv => decide (kv.1 ∈ reservedArgs))).map Prod.fst,
      x ∈ reservedArgs ∧ ∃ w, (x, w) ∈ m := by
  have hbadmem : (k, v) ∈ m.filter (fun kv => decide (kv.1 ∈ reservedArgs)) :=
    List.mem_filter.mpr ⟨hkv, decide_eq_true hk⟩
  have hne : m.filter (fun kv => decide (kv.1 ∈ reservedArgs)) ≠ [] :=
    List.ne_nil_of_mem hbadmem
  have hie : (m.filter (fun kv => decide (kv.1 ∈ reservedArgs))).isEmpty = false := by
    cases hmf : m.filter (fun kv => decide (kv.1 ∈ reservedArgs)) with
    | nil => exact absurd hmf hne
    | cons a l => rfl
  refine ⟨?_, ?_, ?_⟩
  · unfold checkNoReservedArgs
    simp [hie]
  · exact List.mem_map.mpr ⟨(k, v), hbadmem, rfl⟩
  · intro x hx
    obtain ⟨⟨x1, w⟩, hmemf, hxx⟩ := List.mem_map.mp hx
    obtain ⟨hmem, hdec⟩ := List.mem_filter.mp hmemf
    subst hxx
    exact ⟨of_decide_eq_true hdec, ⟨w, hmem⟩⟩

/-- C2: every caller-supplied key is checked against the reserved-key set
before merging: a map free of reserved keys passes unchanged, while in either
variant a caller map holding a reserved key makes construction fail with a
reservedArgumentError naming the offending keys, every named key being a
reserved key taken from the caller-supplied map and never from the
framework-internal fragments, and the collision is never silently merged. -/
theorem claim2_reserved_guard :
    (∀ m : ArgumentMap, (∀ p ∈ m, p.1 ∉ reservedArgs) →
      checkNoReservedArgs (some m) = .ok (some m)) ∧
    (∀ scope id (props : PySparkStreamingJobProperties) u m k v,
      sparkUIStage id props.role props.sparkUI = .ok u →
      props.defaultArguments = some m → (k, v) ∈ m → k ∈ reservedArgs →
      ∃ ks, pySparkStreamingJob.construct scope id props =
          .error (.reservedArgumentError ks) ∧ k ∈ ks ∧
        ∀ x ∈ ks, x ∈ reservedArgs ∧ ∃ w, (x, w) ∈ m) ∧
    (∀ scope id (props : RayJobProperties) m k v,
      props.defaultArguments = some m → (k, v) ∈ m → k ∈ reservedArgs →
      ∃ ks, RayJob.construct scope id props = .error (.reservedArgumentError ks) ∧
        k ∈ ks) := by
  refine ⟨?_, ?_, ?_⟩
  · intro m hm
    have hf : m.filter (fun kv => decide (kv.1 ∈ reservedArgs)) = [] := by
      apply List.filter_eq_nil_iff.mpr
      intro a ha
      simp [hm a ha]
    simp only [checkNoReservedArgs]
    rw [hf]
    rfl
  · intro scope id props u m k v hui hm hkv hk
    obtain ⟨herr, hmem, hall⟩ := checkNoReservedArgs_error m k v hkv hk
    refine ⟨_, ?_, hmem, hall⟩
    unfold pySparkStreamingJob.construct
    rw [hui, hm, herr]
  · intro scope id props m k v hm hkv hk
    obtain ⟨herr, hmem, hall⟩ := checkNoReservedArgs_error m k v hkv hk
    refine ⟨_, ?_, hmem⟩
    unfold RayJob.construct
    rw [hm, herr]

/-- Witness for C2: a clean caller map passes unchanged, while a reserved key
in the caller map fails construction of both variants naming that key. -/
theorem claim2_reserved_guard_witness :
    checkNoReservedArgs (some [("--user-extra", "1")]) =
      .ok (some [("--user-extra", "1")]) ∧
    pySparkStreamingJob.construct "Stack" "JobId" props2 =
      .error (.reservedArgumentError ["--debug"]) ∧
    RayJob.construct "Stack" "JobId" props2ray =
      .error (.reservedArgumentError ["--debug"]) := by
  refine ⟨claim2_reserved_guard.1 [("--user-extra", "1")] (by decide), rfl, rfl⟩

/-- C4: if no Spark UI configuration with a container is supplied, the merged
map carries no enable key (the caller not supplying one either) and no
container is created; if Spark UI is enabled through a caller-supplied
container and a path, the merged map carries the enable key at "true" and the
event-logs path at the URL of that container for the path (the caller
overriding neither key). -/
theorem claim4_spark_ui_args :
    (∀ scope id (props : PySparkStreamingJobProperties) job,
      props.sparkUI.bind SparkUIProps.bucket = none →
      lastLookup (props.defaultArguments.getD []) "--enable-spark-ui" = none →
      pySparkStreamingJob.construct scope id props = .ok job →
      lookupArg job.jobResource.defaultArguments "--enable-spark-ui" = none ∧
      job.createdBuckets = []) ∧
    (∀ scope id (props : PySparkStreamingJobProperties) job sp b p,
      props.sparkUI = some sp → sp.bucket = some b → sp.uiLogPath = some p →
      lastLookup (props.defaultArguments.getD []) "--enable-spark-ui" = none →
      lastLookup (props.defaultArguments.getD []) "--spark-event-logs-path" = none →
      pySparkStreamingJob.construct scope id props = .ok job →
      lookupArg job.jobResource.defaultArguments "--enable-spark-ui" = some "true" ∧
      lookupArg job.jobResource.defaultArguments "--spark-event-logs-path" =
        some (s3UrlForObject b (some p))) := by
  constructor
  · intro scope id props job hb hc h
    obtain ⟨u, hui, hchk, hwp, hjob⟩ := construct_ok scope id props job h
    subst hjob
    constructor
    · rw [buildStreamingJob_args]
      unfold mergedDefaultArguments
      rw [sparkUIStage_args id props.role props.sparkUI u hui, lookupArg_jsMergeAll]
      simp only [orderedMergeLookup, List.foldl]
      rw [sparkUIFragmentOf_none props.sparkUI hb,
          lastLookup_executableArguments props _ (by decide),
          lastLookup_continuousLoggingFragment props.role props.continuousLogging _
            (by decide) (by decide) (by decide) (by decide),
          lastLookup_profilingMetrics _ (by decide), hc]
      rfl
    · have h0 := sparkUIStage_none id props.role props.sparkUI hb
      rw [h0] at hui
      injection hui with hui
      subst hui
      rfl
  · intro scope id props job sp b p hsp hbk hp hc1 hc2 h
    obtain ⟨u, hui, hchk, hwp, hjob⟩ := construct_ok scope id props job h
    subst hjob
    have hfrag : sparkUIFragmentOf props.sparkUI =
        [("--enable-spark-ui", "true"),
         ("--spark-event-logs-path", s3UrlForObject b (some p))] := by
      simp [sparkUIFragmentOf, hsp, hbk, hp]
    constructor
    · rw [buildStreamingJob_args]
      unfold mergedDefaultArguments
      rw [sparkUIStage_args id props.role props.sparkUI u hui, lookupArg_jsMergeAll]
      simp only [orderedMergeLookup, List.foldl]
      rw [hfrag, lastLookup_ui_enable, hc1]
    · rw [buildStreamingJob_args]
      unfold mergedDefaultArguments
      rw [sparkUIStage_args id props.role props.sparkUI u hui, lookupArg_jsMergeAll]
      simp only [orderedMergeLookup, List.foldl]
      rw [hfrag, lastLookup_ui_path, hc2]

/-- Witness for C4: both directions at concrete inputs, Spark UI absent and
Spark UI enabled with a caller-supplied container and the path "logs/". -/
theorem claim4_spark_ui_args_witness :
    pySparkStreamingJob.construct "Stack" "JobId" props1 = .ok fixtureJob1 ∧
    lookupArg fixtureJob1.jobResource.defaultArguments "--enable-spark-ui" = none ∧
    fixtureJob1.createdBuckets = [] ∧
    pySparkStreamingJob.construct "Stack" "JobId" props4 = .ok fixtureJob4 ∧
    lookupArg fixtureJob4.jobResource.defaultArguments "--enable-spark-ui" = some "true" ∧
    lookupArg fixtureJob4.jobResource.defaultArguments "--spark-event-logs-path" =
      some (s3UrlForObject bucket0 (some "logs/")) := by
  have h1 : pySparkStreamingJob.construct "Stack" "JobId" props1 = .ok fixtureJob1 := rfl
  have h4 : pySparkStreamingJob.construct "Stack" "JobId" props4 = .ok fixtureJob4 := rfl
  have a := claim4_spark_ui_args.1 "Stack" "JobId" props1 fixtureJob1 rfl rfl h1
  have b := claim4_spark_ui_args.2 "Stack" "JobId" props4 fixtureJob4
    { bucket := some bucket0, uiLogPath := some "logs/" } bucket0 "logs/"
    rfl rfl rfl rfl rfl h4
  exact ⟨h1, a.1, a.2, h4, b.1, b.2⟩

/-- C9: for every successfully constructed PySpark Streaming job whose caller
arguments do not set the metrics key, the merged ArgumentMap maps
"--enable-metrics" to the empty string, whether continuous logging is enabled
or not, since the metrics fragment is added unconditionally. -/
theorem claim9_metrics_always (scope id : String) (props : PySparkStreamingJobProperties)
    (job : pySparkStreamingJob)
    (h : pySparkStreamingJob.construct scope id props = .ok job)
    (hc : lastLookup (props.defaultArguments.getD []) "--enable-metrics" = none) :
    lookupArg job.jobResource.defaultArguments "--enable-metrics" = some "" := by
  obtain ⟨u, hui, hchk, hwp, hjob⟩ := construct_ok scope id props job h
  subst hjob
  rw [buildStreamingJob_args]
  unfold mergedDefaultArguments
  rw [sparkUIStage_args id props.role props.sparkUI u hui, lookupArg_jsMergeAll]
  simp only [orderedMergeLookup, List.foldl]
  rw [lastLookup_sparkUIFragmentOf props.sparkUI _ (by decide) (by decide), hc]
  rfl

/-- Witness for C9 at a concrete input with continuous logging enabled. -/
theorem claim9_metrics_always_witness :
    pySparkStreamingJob.construct "Stack" "JobId" props9 = .ok fixtureJob9 ∧
    lookupArg fixtureJob9.jobResource.defaultArguments "--enable-metrics" = some "" := by
  have h : pySparkStreamingJob.construct "Stack" "JobId" props9 = .ok fixtureJob9 := rfl
  exact ⟨h, claim9_metrics_always "Stack" "JobId" props9 fixtureJob9 h rfl⟩

end GlueL2
